import Mathlib

/-!
Shallow embedding of the authentication and authorization core of the
GCPImageUpload service (services/implementation/api_key_management_service.py,
api_key_authentication_service.py, authorization_service.py).

Modelling conventions:
* `datetime` values are `Nat` timestamps; `datetime.now()` becomes an explicit
  `now : Nat` argument of the operations that call it.
* `hashlib.pbkdf2_hmac('sha256', key, salt, iterations).hex()` is an abstract
  function parameter `pbkdf2 : String → String → Nat → String` shared by key
  creation and key authentication, exactly as both services call the same
  library routine.
* The Mongo credential collection is an insertion-ordered `List APIKeyModel`;
  `get_api_keys_by_prefix p` is the filter on the indexed exact-match field
  `key_prefix == p`, in store order, truncated to the first 100 results by
  the `to_list(length=100)` cap (mongodb/api_key_repository.py).
* The collaborator lookups used by ownership checks are a record of functions
  `Repository`; each call made is recorded in an explicit fetch log so that
  "no collaborator fetch is issued" is expressible.
* `fastapi.HTTPException(status_code, detail)` is the `HTTPError` structure;
  fallible operations return `Except HTTPError α`.
-/

deriving instance DecidableEq for Except

namespace GCPImageUpload

/-- Python string slicing `s[:n]`: the first `n` characters. (Stated on the
character list of the string, which is the logical model of `String`.) -/
def strTake (s : String) (n : Nat) : String := ⟨s.data.take n⟩

/-- Worker for `pySplit`: walks the character list, cutting at each
separator; `acc` holds the characters of the current piece, reversed. -/
def splitAux (sep : Char) : List Char → List Char → List String
  | [], acc => [⟨acc.reverse⟩]
  | c :: cs, acc =>
    if c == sep then ⟨acc.reverse⟩ :: splitAux sep cs []
    else splitAux sep cs (c :: acc)

/-- Python `s.split(sep)` for a one-character separator (the same function
as `String.splitOn`, defined structurally on the character list so it
computes by kernel reduction): `"".split = [""]`, `"a/b".split("/") =
["a", "b"]`, empty pieces are kept. -/
def pySplit (s : String) (sep : Char) : List String := splitAux sep s.data []

/-- Embedding of `fastapi.HTTPException`: status code and detail string. -/
structure HTTPError where
  status_code : Nat
  detail : String
deriving Repr, DecidableEq

/-- models/api_key_model.py `APIKeyModel` (also the shape of an authenticated
principal: authentication returns an `APIKeyModel`). -/
structure APIKeyModel where
  id : String
  name : String
  key_prefix : String
  key_hash : String
  key_salt : String
  role : String
  user_id : String
  team_id : String
  created_at : Nat
deriving Repr, DecidableEq

/-- models/api_key_model.py `APIKeyCreateResponse`: the only place the full
key value appears. -/
structure APIKeyCreateResponse where
  id : String
  name : String
  key : String
  role : String
  user_id : String
  team_id : String
  created_at : Nat
deriving Repr, DecidableEq

/-- The fields of a user record needed by authorization (models/user_model.py). -/
structure UserModel where
  id : String
  team_id : String
deriving Repr, DecidableEq

/-- The fields of an image record needed by authorization (models/image_model.py). -/
structure ImageModel where
  id : String
  user_id : String
  team_id : String
deriving Repr, DecidableEq

/-- The collaborator read interface consumed by the authorization service
(repository get_user_by_id / get_api_key_by_id / get_image_by_id). -/
structure Repository where
  get_user_by_id : String → Option UserModel
  get_api_key_by_id : String → Option APIKeyModel
  get_image_by_id : String → Option ImageModel

/-- One collaborator fetch issued during ownership verification. -/
inductive Fetch where
  | user (id : String)
  | apiKey (id : String)
  | image (id : String)
deriving Repr, DecidableEq

/-- Constant `KEY_PREFIX_LENGTH = 8` in both services. -/
def KEY_PREFIX_LENGTH : Nat := 8

/-- Constant `PBKDF2_ITERATIONS = 100000` in both services. -/
def PBKDF2_ITERATIONS : Nat := 100000

/-- Embedding of `APIKeyManagementService.create_api_key`. The nondeterministic inputs of
the Python code — `uuid.uuid4()`, `secrets.token_urlsafe(32)`,
`os.urandom(32).hex()` and `datetime.now()` — are passed explicitly as
`api_key_id`, `token`, `salt` and `created_at`. Returns the record written to
the credential store and the one-time creation response. -/
def create_api_key (pbkdf2 : String → String → Nat → String)
    (api_key_id token salt : String) (created_at : Nat)
    (name role user_id team_id : String) :
    APIKeyModel × APIKeyCreateResponse :=
  let api_key_value := "sk_" ++ token
  let key_prefix := strTake api_key_value KEY_PREFIX_LENGTH
  let key_hash := pbkdf2 api_key_value salt PBKDF2_ITERATIONS
  ({ id := api_key_id, name := name, key_prefix := key_prefix,
     key_hash := key_hash, key_salt := salt, role := role,
     user_id := user_id, team_id := team_id, created_at := created_at },
   { id := api_key_id, name := name, key := api_key_value, role := role,
     user_id := user_id, team_id := team_id, created_at := created_at })

/-- Lookup `get_api_keys_by_prefix` of the Mongo repository: exact match on the
`key_prefix` field, in store order, truncated to the first 100 hits by the
`cursor.to_list(length=100)` safety cap
(mongodb/api_key_repository.py). -/
def get_api_keys_by_prefix (store : List APIKeyModel) (p : String) :
    List APIKeyModel :=
  (store.filter fun k => k.key_prefix == p).take 100

/-- Embedding of `APIKeyAuthenticationService.authenticate_api_key`: `root_key` is the
constructor-injected root secret, `store` the credential collection, `now`
the value `datetime.now()` would return for this call. -/
def authenticate_api_key (pbkdf2 : String → String → Nat → String)
    (root_key : String) (store : List APIKeyModel) (now : Nat)
    (api_key : String) : Except HTTPError APIKeyModel :=
  if api_key == "" then
    .error ⟨401, "API key is missing"⟩
  else if api_key == root_key then
    .ok { id := "root", name := "Root API Key", key_prefix := "",
          key_hash := "", key_salt := "", role := "root", user_id := "root",
          team_id := "", created_at := now }
  else if api_key.length < KEY_PREFIX_LENGTH then
    .error ⟨401, "Invalid API key"⟩
  else
    let key_prefix := strTake api_key KEY_PREFIX_LENGTH
    let potential_keys := get_api_keys_by_prefix store key_prefix
    if potential_keys.isEmpty then
      .error ⟨401, "Invalid API key"⟩
    else
      match potential_keys.find? (fun stored_key =>
          pbkdf2 api_key stored_key.key_salt PBKDF2_ITERATIONS ==
            stored_key.key_hash) with
      | some stored_key => .ok stored_key
      | none => .error ⟨401, "Invalid API key"⟩

/-- The `PERMISSION_RULES` table of authorization_service.py, as an ordered
association list per method (Python dict iteration order is insertion order). -/
def PERMISSION_RULES (method : String) : List (String × String) :=
  if method == "POST" then
    [("teams", "root"),
     ("teams/{team_id}/api-keys", "admin"),
     ("teams/{team_id}/users", "admin"),
     ("teams/{team_id}/images", "user")]
  else if method == "PUT" then
    [("teams/{team_id}", "admin"),
     ("teams/{team_id}/api-keys/{api_key_id}", "admin"),
     ("teams/{team_id}/users/{user_id}", "admin"),
     ("teams/{team_id}/images/{image_id}", "admin"),
     ("teams/{team_id}/users/{user_id}/images/{image_id}", "user")]
  else if method == "GET" then
    [("teams", "root"),
     ("teams/{team_id}", "user"),
     ("teams/{team_id}/api-keys", "admin"),
     ("teams/{team_id}/api-keys/{api_key_id}", "admin"),
     ("teams/{team_id}/users", "user"),
     ("teams/{team_id}/users/{user_id}", "user"),
     ("teams/{team_id}/images", "user"),
     ("teams/{team_id}/images/{image_id}", "user"),
     ("teams/{team_id}/users/{user_id}/api-keys", "user"),
     ("teams/{team_id}/users/{user_id}/api-keys/{api_key_id}", "user"),
     ("teams/{team_id}/users/{user_id}/images", "user"),
     ("teams/{team_id}/users/{user_id}/images/{image_id}", "user"),
     ("audit-logs", "root")]
  else if method == "DELETE" then
    [("teams/{team_id}", "root"),
     ("teams/{team_id}/api-keys/{api_key_id}", "admin"),
     ("teams/{team_id}/users/{user_id}", "admin"),
     ("teams/{team_id}/images/{image_id}", "admin"),
     ("teams/{team_id}/users/{user_id}/api-keys/{api_key_id}", "user"),
     ("teams/{team_id}/users/{user_id}/images/{image_id}", "user")]
  else []

/-- The `ROLE_HIERARCHY` table of authorization_service.py. -/
def ROLE_HIERARCHY (role : String) : List String :=
  if role == "root" then ["root", "admin", "user"]
  else if role == "admin" then ["admin", "user"]
  else if role == "user" then ["user"]
  else []

/-- Embedding of `AuthorizationService._is_role_authorized`. -/
def is_role_authorized (user_role required_role : String) : Bool :=
  (ROLE_HIERARCHY user_role).contains required_role

/-- A pattern segment of the form `\x7bname\x7d` (parameter placeholder):
Python `part.startswith("\x7b") and part.endswith("\x7d")`. -/
def isParamSeg (s : String) : Bool :=
  s.data.head? == some '{' && s.data.getLast? == some '}'

/-- The inner matching loop of `_find_matching_pattern`: a pattern segment
list matches a path segment list when they have the same length and every
literal pattern segment equals the corresponding path segment. -/
def segmentsMatch : List String → List String → Bool
  | [], [] => true
  | p :: ps, q :: qs => (isParamSeg p || p == q) && segmentsMatch ps qs
  | _, _ => false

/-- Whether a rule pattern matches a concrete path (length filter plus
segment comparison of `_find_matching_pattern`). -/
def matchesPattern (pattern path : String) : Bool :=
  segmentsMatch (pySplit pattern '/') (pySplit path '/')

/-- The specificity key of the final `max(...)`: the count of literal
(non-parameter) segments of a pattern. -/
def staticCount (pattern : String) : Nat :=
  ((pySplit pattern '/').filter fun part => ! isParamSeg part).length

/-- Python `max(xs, key=staticCount)`: the first element attaining the
maximal key (later elements replace the current best only when strictly
greater). -/
def maxByStaticCount : List String → Option String
  | [] => none
  | x :: xs =>
    some (xs.foldl (fun best p =>
      if staticCount p > staticCount best then p else best) x)

/-- Body of `_find_matching_pattern` restricted to an explicit pattern list. -/
def findMatchingPatternIn (patterns : List String) (path : String) :
    Option String :=
  maxByStaticCount (patterns.filter fun pattern => matchesPattern pattern path)

/-- Embedding of `AuthorizationService._find_matching_pattern`. -/
def find_matching_pattern (method path : String) : Option String :=
  findMatchingPatternIn ((PERMISSION_RULES method).map Prod.fst) path

/-- The path-parameter dictionary built by `extract_path_parameters`; its key
set is fixed (`team_id`, `user_id`, `image_id`, `api_key_id`), so it is a
record of optional values (a missing key is `none`). -/
structure PathParams where
  team_id : Option String := none
  user_id : Option String := none
  image_id : Option String := none
  api_key_id : Option String := none
deriving Repr, DecidableEq

/-- One iteration of the extraction loop at index `i`: inspects
`path_parts[i]` and records `path_parts[i+1]` under the matching key. -/
def extractStep (params : PathParams) (cur next : String) : PathParams :=
  if cur == "teams" then { params with team_id := some next }
  else if cur == "users" then { params with user_id := some next }
  else if cur == "images" then { params with image_id := some next }
  else if cur == "api-keys" then { params with api_key_id := some next }
  else params

/-- The loop `for i in range(len(path_parts) - 1)` of
`extract_path_parameters`, walking consecutive segment pairs left to right
(later assignments overwrite earlier ones). -/
def extractFromParts : PathParams → List String → PathParams
  | params, a :: b :: rest => extractFromParts (extractStep params a b) (b :: rest)
  | params, _ => params

/-- Embedding of `AuthorizationService.extract_path_parameters`. -/
def extract_path_parameters (path : String) : PathParams :=
  extractFromParts {} (pySplit path '/')

/-- The team-scoping gate of `_verify_resource_ownership`: fails when the
path carries a `team_id` different from the principal's. Issues no fetch. -/
def checkTeam (info : APIKeyModel) (params : PathParams) :
    Except HTTPError Unit :=
  match params.team_id with
  | some t =>
    if info.team_id != t then
      .error ⟨403, "Access denied: You can only access resources within your team"⟩
    else .ok ()
  | none => .ok ()

/-- The user-scoping gate of `_verify_resource_ownership`. A `user` may only
reference itself (no fetch); an `admin` fetches the target user and requires
it to exist in its own team — a missing user raises the same 403 as a
cross-team user. -/
def checkUser (repo : Repository) (info : APIKeyModel) (params : PathParams) :
    Except HTTPError Unit × List Fetch :=
  match params.user_id with
  | none => (.ok (), [])
  | some u =>
    if info.role == "user" && info.user_id != u then
      (.error ⟨403, "Access denied: You can only access your own information"⟩, [])
    else if info.role == "admin" then
      match repo.get_user_by_id u with
      | none =>
        (.error ⟨403, "Access denied: User does not belong to your team"⟩,
         [Fetch.user u])
      | some user =>
        if user.team_id != info.team_id then
          (.error ⟨403, "Access denied: User does not belong to your team"⟩,
           [Fetch.user u])
        else (.ok (), [Fetch.user u])
    else (.ok (), [])

/-- The API-key-scoping gate of `_verify_resource_ownership`: fetches the
target credential; missing → 404; a `user` must own it, an `admin` must share
its team. -/
def checkApiKey (repo : Repository) (info : APIKeyModel)
    (params : PathParams) : Except HTTPError Unit × List Fetch :=
  match params.api_key_id with
  | none => (.ok (), [])
  | some k =>
    match repo.get_api_key_by_id k with
    | none => (.error ⟨404, "API key not found"⟩, [Fetch.apiKey k])
    | some api_key =>
      if info.role == "user" && api_key.user_id != info.user_id then
        (.error ⟨403, "Access denied: You can only access your own API keys"⟩,
         [Fetch.apiKey k])
      else if info.role == "admin" && api_key.team_id != info.team_id then
        (.error ⟨403, "Access denied: API key does not belong to your team"⟩,
         [Fetch.apiKey k])
      else (.ok (), [Fetch.apiKey k])

/-- The image-scoping gate of `_verify_resource_ownership`: fetches the
target image; missing → 404; it must belong to the principal's team, and a
`user` issuing DELETE must additionally own it. -/
def checkImage (repo : Repository) (info : APIKeyModel) (params : PathParams)
    (method : String) : Except HTTPError Unit × List Fetch :=
  match params.image_id with
  | none => (.ok (), [])
  | some i =>
    match repo.get_image_by_id i with
    | none => (.error ⟨404, "Image not found"⟩, [Fetch.image i])
    | some image =>
      if image.team_id != info.team_id then
        (.error ⟨403, "Access denied: Image does not belong to your team"⟩,
         [Fetch.image i])
      else if method == "DELETE" && info.role == "user" &&
          image.user_id != info.user_id then
        (.error ⟨403, "Access denied: You can only delete your own images"⟩,
         [Fetch.image i])
      else (.ok (), [Fetch.image i])

/-- Embedding of `AuthorizationService._verify_resource_ownership`: the sequential gate
checks (root bypass, team, user, api-key, image), first failure wins; returns
the outcome and the list of collaborator fetches issued, in order. -/
def verify_resource_ownership (repo : Repository) (info : APIKeyModel)
    (params : PathParams) (method : String) :
    Except HTTPError Bool × List Fetch :=
  if info.role == "root" then (.ok true, [])
  else
    match checkTeam info params with
    | .error e => (.error e, [])
    | .ok _ =>
      match checkUser repo info params with
      | (.error e, l1) => (.error e, l1)
      | (.ok _, l1) =>
        match checkApiKey repo info params with
        | (.error e, l2) => (.error e, l1 ++ l2)
        | (.ok _, l2) =>
          match checkImage repo info params method with
          | (.error e, l3) => (.error e, l1 ++ l2 ++ l3)
          | (.ok _, l3) => (.ok true, l1 ++ l2 ++ l3)

/-- Embedding of `AuthorizationService.authorize_request`: root bypass, rule resolution,
role sufficiency, then resource ownership; returns the outcome and the fetch
log of the ownership phase. -/
def authorize_request (repo : Repository) (method path : String)
    (api_key_info : APIKeyModel) (path_params : PathParams) :
    Except HTTPError Bool × List Fetch :=
  if api_key_info.role == "root" then (.ok true, [])
  else
    match find_matching_pattern method path with
    | none =>
      (.error ⟨403, "Access denied: No permission rule found"⟩, [])
    | some matched_pattern =>
      let required_role :=
        ((PERMISSION_RULES method).lookup matched_pattern).getD ""
      if ! is_role_authorized api_key_info.role required_role then
        (.error ⟨403, "Access denied: Insufficient permissions"⟩, [])
      else
        verify_resource_ownership repo api_key_info path_params method

/-! ### Analysis helpers for the rule table (not part of the source) -/

/-- Two pattern segment lists conflict when at some common position both
carry a literal segment and the literals differ: no path can match both. -/
def conflictingSegs : List String → List String → Bool
  | p :: ps, q :: qs =>
    (!isParamSeg p && !isParamSeg q && p != q) || conflictingSegs ps qs
  | _, _ => false

/-- Patterns that can never both match one path: different segment counts,
or conflicting literal segments. -/
def neverBothMatch (p q : String) : Bool :=
  (pySplit p '/').length != (pySplit q '/').length ||
    conflictingSegs (pySplit p '/') (pySplit q '/')

/-- Every two distinct patterns of the list can never both match one path. -/
def pairwiseExclusive (pats : List String) : Bool :=
  pats.all fun p => pats.all fun q => p == q || neverBothMatch p q

/-! ### Concrete fixtures used by counterexamples and witnesses -/

/-- A repository in which every lookup misses. -/
def emptyRepo : Repository := ⟨fun _ => none, fun _ => none, fun _ => none⟩

/-- A principal with role `user`, member of team `t1`. -/
def sampleUser : APIKeyModel :=
  { id := "k1", name := "user key", key_prefix := "sk_aaaaa", key_hash := "h1",
    key_salt := "s1", role := "user", user_id := "u1", team_id := "t1",
    created_at := 0 }

/-- A principal with role `admin`, member of team `t1`. -/
def sampleAdmin : APIKeyModel :=
  { id := "k2", name := "admin key", key_prefix := "sk_bbbbb", key_hash := "h2",
    key_salt := "s2", role := "admin", user_id := "a1", team_id := "t1",
    created_at := 0 }

/-- A principal with role `root`. -/
def sampleRoot : APIKeyModel :=
  { id := "root", name := "Root API Key", key_prefix := "", key_hash := "",
    key_salt := "", role := "root", user_id := "root", team_id := "",
    created_at := 0 }

/-- A repository holding exactly one image `i1`, uploaded by `u2` in team
`t1`. -/
def imageRepo : Repository :=
  ⟨fun _ => none, fun _ => none,
   fun i => if i == "i1" then
      some { id := "i1", user_id := "u2", team_id := "t1" }
    else none⟩

/-- A toy stand-in for the PBKDF2 function, used only to instantiate
hypotheses in witnesses: concatenation of key and salt. -/
def concatHash : String → String → Nat → String := fun key s _ => key ++ s

/-- A stored credential for the secret `sk_abcdefgh` under `concatHash`. -/
def storedKey : APIKeyModel :=
  { id := "k9", name := "stored", key_prefix := "sk_abcde",
    key_hash := "sk_abcdefghs1", key_salt := "s1", role := "user",
    user_id := "u9", team_id := "t9", created_at := 5 }

/-- A 43-character string: the length of `secrets.token_urlsafe(32)`. -/
def tok43 : String := "aaaaaaaaaaaaaaaaaaaaaaaaaaaaaaaaaaaaaaaaaaa"

/-- A 64-character string: the length of `os.urandom(32).hex()`. -/
def salt64 : String :=
  "bbbbbbbbbbbbbbbbbbbbbbbbbbbbbbbbbbbbbbbbbbbbbbbbbbbbbbbbbbbbbbbb"

/-- A 36-character string: the length of `str(uuid.uuid4())`. -/
def id36 : String := "cccccccccccccccccccccccccccccccccccc"

/-- A toy hash function whose outputs always have length 64, like a hex
SHA-256 digest. -/
def hash64 : String → String → Nat → String :=
  fun _ _ _ => "dddddddddddddddddddddddddddddddddddddddddddddddddddddddddddddddd"

/-! ### Claims -/

/-- C3: for every repository, HTTP method, path and extracted parameter map,
`authorize_request` with a principal whose role is `"root"` returns success
with an empty collaborator-fetch log — the outcome is the same for all rule
tables and repositories, so no rule lookup, role check or ownership check
influences it. -/
theorem C3_root_bypass (repo : Repository) (method path : String)
    (info : APIKeyModel) (params : PathParams) (h : info.role = "root") :
    authorize_request repo method path info params = (.ok true, []) := by
  simp [authorize_request, h]

/-- Witness for C3 at a concrete request. -/
theorem C3_root_bypass_witness :
    sampleRoot.role = "root" ∧
    authorize_request emptyRepo "DELETE" "teams/t9" sampleRoot
      (extract_path_parameters "teams/t9") = (.ok true, []) :=
  ⟨rfl, C3_root_bypass emptyRepo "DELETE" "teams/t9" sampleRoot
    (extract_path_parameters "teams/t9") rfl⟩

/-- C4 (counterexample): with the configured root secret equal to the empty
string, presenting that root secret does not return a root principal — the
missing-key guard `if not api_key` fires first and authentication fails 401.
So authentication does not return `role=root` for *every* configured root
secret and store. -/
theorem C4_empty_root_secret_counterexample :
    authenticate_api_key (fun _ _ _ => "") "" [] 0 "" =
      .error ⟨401, "API key is missing"⟩ := by decide

/-- C4 (amended): for every *nonempty* configured root secret and every
store contents, presenting the root secret returns the synthetic root
principal (`role = "root"`, no team), regardless of what credentials are
stored. -/
theorem C4_root_secret_authenticates (pbkdf2 : String → String → Nat → String)
    (root_key : String) (store : List APIKeyModel) (now : Nat)
    (h : root_key ≠ "") :
    authenticate_api_key pbkdf2 root_key store now root_key =
      .ok { id := "root", name := "Root API Key", key_prefix := "",
            key_hash := "", key_salt := "", role := "root", user_id := "root",
            team_id := "", created_at := now } := by
  simp [authenticate_api_key, h]

/-- Witness for C4 (amended) at a concrete root secret and nonempty store. -/
theorem C4_root_secret_authenticates_witness :
    ("root-admin-key" : String) ≠ "" ∧
    authenticate_api_key (fun _ _ _ => "") "root-admin-key" [sampleUser] 7
        "root-admin-key" =
      .ok { id := "root", name := "Root API Key", key_prefix := "",
            key_hash := "", key_salt := "", role := "root", user_id := "root",
            team_id := "", created_at := 7 } :=
  ⟨by decide, C4_root_secret_authenticates (fun _ _ _ => "") "root-admin-key"
    [sampleUser] 7 (by decide)⟩

/-- C8: with the patterns `teams/\x7bteam_id\x7d` and
`teams/\x7bteam_id\x7d/images/\x7bimage_id\x7d` registered, the path
`teams/t1/images/i1` matches only the second pattern (the segment-count
filter excludes the first), and parameter extraction returns exactly
`team_id = t1`, `image_id = i1` — independently of any rule matching. -/
theorem C8_path_matcher_example :
    matchesPattern "teams/{team_id}" "teams/t1/images/i1" = false ∧
    matchesPattern "teams/{team_id}/images/{image_id}" "teams/t1/images/i1"
      = true ∧
    findMatchingPatternIn
        ["teams/{team_id}", "teams/{team_id}/images/{image_id}"]
        "teams/t1/images/i1"
      = some "teams/{team_id}/images/{image_id}" ∧
    extract_path_parameters "teams/t1/images/i1" =
      { team_id := some "t1", user_id := none, image_id := some "i1",
        api_key_id := none } := by decide

/-- Appending one element to a list never yields the empty list. -/
theorem isEmpty_append_singleton {α : Type} (l : List α) (x : α) :
    (l ++ [x]).isEmpty = false := by cases l <;> rfl

/-- Truncation to `n` keeps a list whose length is below `n` intact, also
after appending one element. -/
theorem take_append_singleton_of_lt {α : Type} (l : List α) (x : α) (n : Nat)
    (h : l.length < n) : (l ++ [x]).take n = l ++ [x] := by
  apply List.take_of_length_le
  rw [List.length_append]
  simp only [List.length_cons, List.length_nil]
  omega

/-- If every element of `l` fails the predicate and `x` satisfies it, the
first hit in `l ++ [x]` is `x`. -/
theorem findFirst_append_singleton {α : Type} (p : α → Bool) (l : List α)
    (x : α) (hl : ∀ a ∈ l, p a = false) (hx : p x = true) :
    (l ++ [x]).find? p = some x := by
  induction l with
  | nil => simp [List.find?, hx]
  | cons a as ih =>
    have ha := hl a (List.mem_cons_self a as)
    simp only [List.cons_append, List.find?, ha]
    exact ih fun b hb => hl b (List.mem_cons_of_mem a hb)

/-- C1: round-trip of key issuance and authentication. For every credential
issued by `create_api_key` and appended to the store, presenting the raw
secret (`sk_` + token) to `authenticate_api_key` returns exactly the stored
record, whose role, `user_id` and `team_id` equal the creation arguments.
Hypotheses: the random token has the length the code guarantees (at least 5,
so the full key is at least `KEY_PREFIX_LENGTH` long), the fresh secret is
not the root secret, it does not verify against any pre-existing stored
credential (no PBKDF2 collision), and fewer than 100 pre-existing
credentials share its prefix, so the `to_list(length=100)` cap of the
prefix lookup does not cut off the new record. -/
theorem C1_create_then_authenticate
    (pbkdf2 : String → String → Nat → String)
    (api_key_id token salt : String) (created_at now : Nat)
    (name role user_id team_id root_key : String) (store : List APIKeyModel)
    (htok : 5 ≤ token.length)
    (hroot : "sk_" ++ token ≠ root_key)
    (hfresh : ∀ k ∈ store,
      pbkdf2 ("sk_" ++ token) k.key_salt PBKDF2_ITERATIONS ≠ k.key_hash)
    (hcap : (store.filter fun k =>
      k.key_prefix == strTake ("sk_" ++ token) KEY_PREFIX_LENGTH).length
        < 100) :
    (create_api_key pbkdf2 api_key_id token salt created_at name role
        user_id team_id).2.key = "sk_" ++ token ∧
    authenticate_api_key pbkdf2 root_key
        (store ++ [(create_api_key pbkdf2 api_key_id token salt created_at
          name role user_id team_id).1])
        now ("sk_" ++ token)
      = .ok (create_api_key pbkdf2 api_key_id token salt created_at name role
          user_id team_id).1 ∧
    (create_api_key pbkdf2 api_key_id token salt created_at name role
        user_id team_id).1.role = role ∧
    (create_api_key pbkdf2 api_key_id token salt created_at name role
        user_id team_id).1.user_id = user_id ∧
    (create_api_key pbkdf2 api_key_id token salt created_at name role
        user_id team_id).1.team_id = team_id := by
  refine ⟨rfl, ?_, rfl, rfl, rfl⟩
  have h3 : ("sk_" : String).length = 3 := by decide
  have hKlen : ("sk_" ++ token).length = 3 + token.length := by
    rw [String.length_append, h3]
  have hne : (("sk_" ++ token) == "") = false := by
    simp only [beq_eq_false_iff_ne, ne_eq]
    intro h
    have h2 := congrArg String.length h
    rw [hKlen] at h2
    simp at h2
  have hrk : (("sk_" ++ token) == root_key) = false := by
    simp [hroot]
  have hnl : ¬ ("sk_" ++ token).length < KEY_PREFIX_LENGTH := by
    rw [hKlen]
    simp only [KEY_PREFIX_LENGTH]
    omega
  simp only [authenticate_api_key, create_api_key, hne, hrk, hnl,
    Bool.false_eq_true, if_false, get_api_keys_by_prefix, List.filter_append,
    List.filter_cons, List.filter_nil, beq_self_eq_true, if_true]
  rw [take_append_singleton_of_lt _ _ _ hcap]
  simp only [isEmpty_append_singleton, Bool.false_eq_true, if_false]
  rw [findFirst_append_singleton _ _ _ ?hl ?hx]
  case hl =>
    intro a ha
    simp only [beq_eq_false_iff_ne, ne_eq]
    exact hfresh a (List.mem_filter.mp ha).1
  case hx => exact beq_self_eq_true _

/-- Witness for C1: a concrete issuance over an empty store, authenticated
with the created secret. -/
theorem C1_create_then_authenticate_witness :
    (5 ≤ ("abcdefgh" : String).length) ∧
    ("sk_" ++ "abcdefgh" ≠ "rk") ∧
    (∀ k ∈ ([] : List APIKeyModel),
      concatHash ("sk_" ++ "abcdefgh") k.key_salt PBKDF2_ITERATIONS
        ≠ k.key_hash) ∧
    (([] : List APIKeyModel).filter fun k =>
      k.key_prefix == strTake ("sk_" ++ "abcdefgh") KEY_PREFIX_LENGTH).length
        < 100 ∧
    ((create_api_key concatHash "id1" "abcdefgh" "slt" 3 "n" "user" "u1"
        "t1").2.key = "sk_" ++ "abcdefgh" ∧
     authenticate_api_key concatHash "rk"
        ([] ++ [(create_api_key concatHash "id1" "abcdefgh" "slt" 3 "n"
          "user" "u1" "t1").1]) 9 ("sk_" ++ "abcdefgh")
       = .ok (create_api_key concatHash "id1" "abcdefgh" "slt" 3 "n" "user"
          "u1" "t1").1 ∧
     (create_api_key concatHash "id1" "abcdefgh" "slt" 3 "n" "user" "u1"
        "t1").1.role = "user" ∧
     (create_api_key concatHash "id1" "abcdefgh" "slt" 3 "n" "user" "u1"
        "t1").1.user_id = "u1" ∧
     (create_api_key concatHash "id1" "abcdefgh" "slt" 3 "n" "user" "u1"
        "t1").1.team_id = "t1") :=
  ⟨by decide, by decide, by simp, by decide,
   C1_create_then_authenticate concatHash "id1" "abcdefgh" "slt" 3 9 "n"
     "user" "u1" "t1" "rk" [] (by decide) (by decide) (by simp) (by decide)⟩

/-- C2: the raw secret is never stored. Every string field of the record
written to the credential store differs from the full raw key value: the
generated fields by length (`key_prefix` has 8 characters, `key_hash` and
`key_salt` 64, the uuid `id` 36, while the key has 46), and the
caller-supplied fields (`name`, `role`, `user_id`, `team_id`) under the
freshness hypothesis that they were fixed before the random token was drawn
and so differ from it. (`created_at` is a timestamp, not a string, and
cannot equal the key.) -/
theorem C2_raw_secret_never_stored (pbkdf2 : String → String → Nat → String)
    (api_key_id token salt : String) (created_at : Nat)
    (name role user_id team_id : String)
    (htok : token.length = 43)
    (hsalt : salt.length = 64)
    (hhash : ∀ key s iters, (pbkdf2 key s iters).length = 64)
    (hid : api_key_id.length = 36)
    (hname : name ≠ "sk_" ++ token) (hrole : role ≠ "sk_" ++ token)
    (huid : user_id ≠ "sk_" ++ token) (htid : team_id ≠ "sk_" ++ token) :
    (create_api_key pbkdf2 api_key_id token salt created_at name role user_id
        team_id).1.id ≠ "sk_" ++ token ∧
    (create_api_key pbkdf2 api_key_id token salt created_at name role user_id
        team_id).1.name ≠ "sk_" ++ token ∧
    APIKeyModel.key_prefix (create_api_key pbkdf2 api_key_id token salt
        created_at name role user_id team_id).1 ≠ "sk_" ++ token ∧
    (create_api_key pbkdf2 api_key_id token salt created_at name role user_id
        team_id).1.key_hash ≠ "sk_" ++ token ∧
    (create_api_key pbkdf2 api_key_id token salt created_at name role user_id
        team_id).1.key_salt ≠ "sk_" ++ token ∧
    (create_api_key pbkdf2 api_key_id token salt created_at name role user_id
        team_id).1.role ≠ "sk_" ++ token ∧
    (create_api_key pbkdf2 api_key_id token salt created_at name role user_id
        team_id).1.user_id ≠ "sk_" ++ token ∧
    (create_api_key pbkdf2 api_key_id token salt created_at name role user_id
        team_id).1.team_id ≠ "sk_" ++ token := by
  have hlenne : ∀ a b : String, a.length ≠ b.length → a ≠ b :=
    fun a b h hab => h (hab ▸ rfl)
  have h3 : ("sk_" : String).length = 3 := by decide
  have hK : ("sk_" ++ token).length = 46 := by
    rw [String.length_append, h3, htok]
  have hKd : ("sk_" ++ token).data.length = 46 := hK
  have hpre : (strTake ("sk_" ++ token) KEY_PREFIX_LENGTH).length = 8 := by
    show (("sk_" ++ token).data.take KEY_PREFIX_LENGTH).length = 8
    rw [List.length_take, hKd]
    rfl
  refine ⟨hlenne _ _ ?_, hname, hlenne _ _ ?_, hlenne _ _ ?_,
    hlenne _ _ ?_, hrole, huid, htid⟩
  · show api_key_id.length ≠ _
    rw [hid, hK]
    omega
  · show (strTake ("sk_" ++ token) KEY_PREFIX_LENGTH).length ≠ _
    rw [hpre, hK]
    omega
  · show (pbkdf2 ("sk_" ++ token) salt PBKDF2_ITERATIONS).length ≠ _
    rw [hhash, hK]
    omega
  · show salt.length ≠ _
    rw [hsalt, hK]
    omega

/-- Witness for C2 at concrete inputs of the realistic lengths. -/
theorem C2_raw_secret_never_stored_witness :
    tok43.length = 43 ∧ salt64.length = 64 ∧
    (∀ key s iters, (hash64 key s iters).length = 64) ∧ id36.length = 36 ∧
    ("n" ≠ "sk_" ++ tok43) ∧ ("user" ≠ "sk_" ++ tok43) ∧
    ("u1" ≠ "sk_" ++ tok43) ∧ ("t1" ≠ "sk_" ++ tok43) ∧
    ((create_api_key hash64 id36 tok43 salt64 3 "n" "user" "u1"
        "t1").1.id ≠ "sk_" ++ tok43 ∧
     (create_api_key hash64 id36 tok43 salt64 3 "n" "user" "u1"
        "t1").1.name ≠ "sk_" ++ tok43 ∧
     APIKeyModel.key_prefix (create_api_key hash64 id36 tok43 salt64 3 "n"
        "user" "u1" "t1").1 ≠ "sk_" ++ tok43 ∧
     (create_api_key hash64 id36 tok43 salt64 3 "n" "user" "u1"
        "t1").1.key_hash ≠ "sk_" ++ tok43 ∧
     (create_api_key hash64 id36 tok43 salt64 3 "n" "user" "u1"
        "t1").1.key_salt ≠ "sk_" ++ tok43 ∧
     (create_api_key hash64 id36 tok43 salt64 3 "n" "user" "u1"
        "t1").1.role ≠ "sk_" ++ tok43 ∧
     (create_api_key hash64 id36 tok43 salt64 3 "n" "user" "u1"
        "t1").1.user_id ≠ "sk_" ++ tok43 ∧
     (create_api_key hash64 id36 tok43 salt64 3 "n" "user" "u1"
        "t1").1.team_id ≠ "sk_" ++ tok43) :=
  ⟨by decide, by decide, fun _ _ _ => by simp only [hash64]; decide, by decide, by decide,
   by decide, by decide, by decide,
   C2_raw_secret_never_stored hash64 id36 tok43 salt64 3 "n" "user" "u1"
     "t1" (by decide) (by decide) (fun _ _ _ => by simp only [hash64]; decide) (by decide)
     (by decide) (by decide) (by decide) (by decide)⟩

/-- C5 (counterexample): the claim says every ownership check that fetches a
referenced resource surfaces NotFound (404) when the lookup misses. In the
admin user-scoping check the code instead folds the missing-user case into
the cross-team 403: here the user lookup returns `none`, yet the outcome is
403 "User does not belong to your team", not 404. -/
theorem C5_missing_user_counterexample :
    emptyRepo.get_user_by_id "u2" = none ∧
    verify_resource_ownership emptyRepo sampleAdmin { user_id := some "u2" }
        "GET"
      = (.error ⟨403, "Access denied: User does not belong to your team"⟩,
         [Fetch.user "u2"]) := by decide

/-- C5 (amended): in the API-key and image ownership checks a missing
resource surfaces NotFound (404), distinct from Forbidden (403) for a found
but mismatched resource; the admin user-scoping check however treats a
missing target user the same as a cross-team user, surfacing the 403
user-outside-team error rather than 404. -/
theorem C5_notfound_vs_forbidden (repo : Repository) (info : APIKeyModel)
    (k i u method : String)
    (hrole : info.role = "admin")
    (hk : repo.get_api_key_by_id k = none)
    (hi : repo.get_image_by_id i = none)
    (hu : repo.get_user_by_id u = none) :
    verify_resource_ownership repo info { api_key_id := some k } method
      = (.error ⟨404, "API key not found"⟩, [Fetch.apiKey k]) ∧
    verify_resource_ownership repo info { image_id := some i } method
      = (.error ⟨404, "Image not found"⟩, [Fetch.image i]) ∧
    verify_resource_ownership repo info { user_id := some u } method
      = (.error ⟨403, "Access denied: User does not belong to your team"⟩,
         [Fetch.user u]) := by
  refine ⟨?_, ?_, ?_⟩ <;>
    simp [verify_resource_ownership, checkTeam, checkUser, checkApiKey,
      checkImage, hrole, hk, hi, hu]

/-- Witness for C5 (amended) at a concrete admin principal and empty
repository. -/
theorem C5_notfound_vs_forbidden_witness :
    sampleAdmin.role = "admin" ∧
    emptyRepo.get_api_key_by_id "x1" = none ∧
    emptyRepo.get_image_by_id "x2" = none ∧
    emptyRepo.get_user_by_id "x3" = none ∧
    (verify_resource_ownership emptyRepo sampleAdmin
        { api_key_id := some "x1" } "GET"
      = (.error ⟨404, "API key not found"⟩, [Fetch.apiKey "x1"]) ∧
     verify_resource_ownership emptyRepo sampleAdmin
        { image_id := some "x2" } "GET"
      = (.error ⟨404, "Image not found"⟩, [Fetch.image "x2"]) ∧
     verify_resource_ownership emptyRepo sampleAdmin
        { user_id := some "x3" } "GET"
      = (.error ⟨403, "Access denied: User does not belong to your team"⟩,
         [Fetch.user "x3"])) :=
  ⟨rfl, rfl, rfl, rfl,
   C5_notfound_vs_forbidden emptyRepo sampleAdmin "x1" "x2" "x3" "GET" rfl
     rfl rfl rfl⟩

/-- C6 (counterexample): the claim says every role-`user` DELETE on an image
path whose target image is in the principal's team but uploaded by another
user fails with the not-own-image reason. On the image path
`teams/t1/images/i1` the DELETE rule requires `admin`, so the same request
fails with "Insufficient permissions" before any ownership check — the
earlier gates preempt the claimed reason. -/
theorem C6_not_own_image_counterexample :
    imageRepo.get_image_by_id "i1"
      = some { id := "i1", user_id := "u2", team_id := "t1" } ∧
    sampleUser.role = "user" ∧ sampleUser.team_id = "t1" ∧
    sampleUser.user_id = "u1" ∧
    authorize_request imageRepo "DELETE" "teams/t1/images/i1" sampleUser
        (extract_path_parameters "teams/t1/images/i1")
      = (.error ⟨403, "Access denied: Insufficient permissions"⟩, []) := by
  decide

/-- C6 (amended): for every role-`user` DELETE request that passes rule
resolution, role sufficiency, and the earlier ownership gates (team and user
parameters matching the principal, no api-key parameter), where the target
image is found, belongs to the principal's team, but was uploaded by a
different user, `authorize_request` fails with the not-own-image reason
("You can only delete your own images"), not the image-outside-team
reason. -/
theorem C6_delete_not_own_image (repo : Repository) (path pat : String)
    (info : APIKeyModel) (params : PathParams) (i : String)
    (img : ImageModel)
    (hrole : info.role = "user")
    (hpat : find_matching_pattern "DELETE" path = some pat)
    (hrank : is_role_authorized info.role
      (((PERMISSION_RULES "DELETE").lookup pat).getD "") = true)
    (hpi : params.image_id = some i)
    (himg : repo.get_image_by_id i = some img)
    (hteam : img.team_id = info.team_id)
    (huser : img.user_id ≠ info.user_id)
    (hpt : params.team_id = none ∨ params.team_id = some info.team_id)
    (hpu : params.user_id = none ∨ params.user_id = some info.user_id)
    (hpk : params.api_key_id = none) :
    authorize_request repo "DELETE" path info params
      = (.error ⟨403, "Access denied: You can only delete your own images"⟩,
         [Fetch.image i]) := by
  rw [hrole] at hrank
  rcases hpt with hpt | hpt <;> rcases hpu with hpu | hpu <;>
    simp [authorize_request, verify_resource_ownership, checkTeam, checkUser,
      checkApiKey, checkImage, hrole, hpat, hrank, hpi, himg, hteam, huser,
      hpt, hpu, hpk]

/-- Witness for C6 (amended): user `u1` of team `t1` issuing DELETE
`teams/t1/users/u1/images/i1` (rule `minimum_role = user`), where image `i1`
is in team `t1` but was uploaded by `u2`. -/
theorem C6_delete_not_own_image_witness :
    sampleUser.role = "user" ∧
    find_matching_pattern "DELETE" "teams/t1/users/u1/images/i1"
      = some "teams/{team_id}/users/{user_id}/images/{image_id}" ∧
    is_role_authorized sampleUser.role
      (((PERMISSION_RULES "DELETE").lookup
        "teams/{team_id}/users/{user_id}/images/{image_id}").getD "")
      = true ∧
    (extract_path_parameters "teams/t1/users/u1/images/i1").image_id
      = some "i1" ∧
    imageRepo.get_image_by_id "i1"
      = some { id := "i1", user_id := "u2", team_id := "t1" } ∧
    ("t1" : String) = sampleUser.team_id ∧
    ("u2" : String) ≠ sampleUser.user_id ∧
    ((extract_path_parameters "teams/t1/users/u1/images/i1").team_id = none ∨
      (extract_path_parameters "teams/t1/users/u1/images/i1").team_id
        = some sampleUser.team_id) ∧
    ((extract_path_parameters "teams/t1/users/u1/images/i1").user_id = none ∨
      (extract_path_parameters "teams/t1/users/u1/images/i1").user_id
        = some sampleUser.user_id) ∧
    (extract_path_parameters "teams/t1/users/u1/images/i1").api_key_id
      = none ∧
    authorize_request imageRepo "DELETE" "teams/t1/users/u1/images/i1"
        sampleUser (extract_path_parameters "teams/t1/users/u1/images/i1")
      = (.error ⟨403, "Access denied: You can only delete your own images"⟩,
         [Fetch.image "i1"]) :=
  ⟨rfl, by decide, by decide, by decide, rfl, rfl, by decide,
   Or.inr (by decide), Or.inr (by decide), by decide,
   C6_delete_not_own_image imageRepo "teams/t1/users/u1/images/i1"
     "teams/{team_id}/users/{user_id}/images/{image_id}" sampleUser
     (extract_path_parameters "teams/t1/users/u1/images/i1") "i1"
     { id := "i1", user_id := "u2", team_id := "t1" } rfl (by decide)
     (by decide) (by decide) rfl rfl (by decide) (Or.inr (by decide))
     (Or.inr (by decide)) (by decide)⟩

/-- C7 (counterexample): the claim says every non-root request whose
parameters carry a foreign `team_id` fails with the cross-team reason. Here
a role-`user` GET on `teams/t2/api-keys` (whose rule requires `admin`) with
principal team `t1` fails with "Insufficient permissions" instead — the role
gate fires before the team-scoping gate. -/
theorem C7_cross_team_counterexample :
    (extract_path_parameters "teams/t2/api-keys").team_id = some "t2" ∧
    sampleUser.team_id = "t1" ∧
    authorize_request emptyRepo "GET" "teams/t2/api-keys" sampleUser
        (extract_path_parameters "teams/t2/api-keys")
      = (.error ⟨403, "Access denied: Insufficient permissions"⟩, []) := by
  decide

/-- C7 (amended): for every non-root request that passes rule resolution and
role sufficiency, a `team_id` parameter different from the principal's team
fails with the cross-team reason and an empty fetch log — no collaborator
fetch (user, API-key or image lookup) is issued, whatever the repository
contains. -/
theorem C7_cross_team_before_fetches (repo : Repository)
    (method path : String) (info : APIKeyModel) (params : PathParams)
    (t pat : String)
    (hroot : info.role ≠ "root")
    (hpat : find_matching_pattern method path = some pat)
    (hrank : is_role_authorized info.role
      (((PERMISSION_RULES method).lookup pat).getD "") = true)
    (hpt : params.team_id = some t)
    (ht : t ≠ info.team_id) :
    authorize_request repo method path info params =
      (.error ⟨403,
        "Access denied: You can only access resources within your team"⟩,
       []) := by
  simp [authorize_request, hroot, hpat, hrank, verify_resource_ownership,
    checkTeam, hpt, Ne.symm ht]

/-- Witness for C7 (amended): user of team `t1` issuing GET
`teams/t2/images`, a request whose rule (`minimum_role = user`) the role
gate accepts. -/
theorem C7_cross_team_before_fetches_witness :
    sampleUser.role ≠ "root" ∧
    find_matching_pattern "GET" "teams/t2/images"
      = some "teams/{team_id}/images" ∧
    is_role_authorized sampleUser.role
      (((PERMISSION_RULES "GET").lookup "teams/{team_id}/images").getD "")
      = true ∧
    (extract_path_parameters "teams/t2/images").team_id = some "t2" ∧
    ("t2" : String) ≠ sampleUser.team_id ∧
    authorize_request emptyRepo "GET" "teams/t2/images" sampleUser
        (extract_path_parameters "teams/t2/images") =
      (.error ⟨403,
        "Access denied: You can only access resources within your team"⟩,
       []) :=
  ⟨by decide, by decide, by decide, by decide, by decide,
   C7_cross_team_before_fetches emptyRepo "GET" "teams/t2/images" sampleUser
     (extract_path_parameters "teams/t2/images") "t2"
     "teams/{team_id}/images" (by decide) (by decide) (by decide)
     (by decide) (by decide)⟩

/-- C9 (counterexample): the claim says two authentications of the same
secret against an unchanged store return records equal in every field,
including for the root secret. The root branch stamps `created_at` with
`datetime.now()`, so two calls at different instants return records that
differ in `created_at`. -/
theorem C9_root_created_at_counterexample :
    authenticate_api_key concatHash "rk" [] 0 "rk"
      = .ok { id := "root", name := "Root API Key", key_prefix := "",
              key_hash := "", key_salt := "", role := "root",
              user_id := "root", team_id := "", created_at := 0 } ∧
    authenticate_api_key concatHash "rk" [] 1 "rk"
      = .ok { id := "root", name := "Root API Key", key_prefix := "",
              key_hash := "", key_salt := "", role := "root",
              user_id := "root", team_id := "", created_at := 1 } ∧
    authenticate_api_key concatHash "rk" [] 0 "rk"
      ≠ authenticate_api_key concatHash "rk" [] 1 "rk" := by decide

/-- C9 (amended): authentication of a successfully-authenticating secret
against an unchanged store is repeatable: a second call also succeeds, with
a record equal in every field except possibly `created_at`; for a secret
other than the root secret (a stored credential) the two records are
identical in every field. -/
theorem C9_authenticate_idempotent (pbkdf2 : String → String → Nat → String)
    (root_key : String) (store : List APIKeyModel) (now1 now2 : Nat)
    (s : String) (k : APIKeyModel)
    (h1 : authenticate_api_key pbkdf2 root_key store now1 s = .ok k) :
    ∃ k2, authenticate_api_key pbkdf2 root_key store now2 s = .ok k2 ∧
      k2.id = k.id ∧ k2.name = k.name ∧ k2.key_prefix = k.key_prefix ∧
      k2.key_hash = k.key_hash ∧ k2.key_salt = k.key_salt ∧
      k2.role = k.role ∧ k2.user_id = k.user_id ∧ k2.team_id = k.team_id ∧
      (s ≠ root_key → k2 = k) := by
  by_cases h0 : s = ""
  · subst h0; simp [authenticate_api_key] at h1
  · by_cases hr : s = root_key
    · subst hr
      simp only [authenticate_api_key, beq_iff_eq, h0, if_false, if_true,
        if_pos rfl] at h1 ⊢
      refine ⟨_, rfl, ?_⟩
      simp at h1
      subst h1
      simp
    · refine ⟨k, ?_, rfl, rfl, rfl, rfl, rfl, rfl, rfl, rfl, fun _ => rfl⟩
      simp only [authenticate_api_key, beq_iff_eq, h0, hr, if_false] at h1 ⊢
      exact h1

/-- Witness for C9 (amended): a stored credential authenticated at two
different instants. -/
theorem C9_authenticate_idempotent_witness :
    authenticate_api_key concatHash "rk" [storedKey] 0 "sk_abcdefgh"
      = .ok storedKey ∧
    (∃ k2, authenticate_api_key concatHash "rk" [storedKey] 1 "sk_abcdefgh"
        = .ok k2 ∧
      k2.id = storedKey.id ∧ k2.name = storedKey.name ∧
      k2.key_prefix = APIKeyModel.key_prefix storedKey ∧
      k2.key_hash = storedKey.key_hash ∧ k2.key_salt = storedKey.key_salt ∧
      k2.role = storedKey.role ∧ k2.user_id = storedKey.user_id ∧
      k2.team_id = storedKey.team_id ∧
      ("sk_abcdefgh" ≠ "rk" → k2 = storedKey)) :=
  ⟨by decide,
   C9_authenticate_idempotent concatHash "rk" [storedKey] 0 1 "sk_abcdefgh"
     storedKey (by decide)⟩

/-- A matching pattern list fixes the segment count of the path. -/
theorem segmentsMatch_length_eq (ps qs : List String)
    (h : segmentsMatch ps qs = true) : ps.length = qs.length := by
  induction ps generalizing qs with
  | nil => cases qs with
    | nil => rfl
    | cons q qs => simp [segmentsMatch] at h
  | cons p ps ih => cases qs with
    | nil => simp [segmentsMatch] at h
    | cons q qs =>
      simp only [segmentsMatch, Bool.and_eq_true] at h
      simp [ih qs h.2]

/-- Two pattern segment lists with conflicting literal segments cannot both
match one path. -/
theorem conflictingSegs_not_both (ps qs parts : List String)
    (hc : conflictingSegs ps qs = true)
    (hp : segmentsMatch ps parts = true)
    (hq : segmentsMatch qs parts = true) : False := by
  induction ps generalizing qs parts with
  | nil => simp [conflictingSegs] at hc
  | cons p ps ih =>
    cases qs with
    | nil => simp [conflictingSegs] at hc
    | cons q qs =>
      cases parts with
      | nil => simp [segmentsMatch] at hp
      | cons r rs =>
        simp only [segmentsMatch, Bool.and_eq_true, Bool.or_eq_true,
          beq_iff_eq] at hp hq
        simp only [conflictingSegs, Bool.or_eq_true, Bool.and_eq_true,
          Bool.not_eq_true', bne_iff_ne, ne_eq] at hc
        rcases hc with ⟨⟨hpp, hqq⟩, hne⟩ | hc
        · rcases hp.1 with hp1 | hp1
          · rw [hpp] at hp1; exact absurd hp1 (by simp)
          · rcases hq.1 with hq1 | hq1
            · rw [hqq] at hq1; exact absurd hq1 (by simp)
            · exact hne (hp1.trans hq1.symm)
        · exact ih qs rs hc hp.2 hq.2

/-- In a pairwise-exclusive pattern list, at most one pattern matches any
concrete path. -/
theorem pairwiseExclusive_filter_eq (pats : List String) (path : String)
    (hp : pairwiseExclusive pats = true) (p q : String)
    (hpm : p ∈ pats.filter fun pat => matchesPattern pat path)
    (hqm : q ∈ pats.filter fun pat => matchesPattern pat path) : p = q := by
  have hp1 := List.mem_filter.mp hpm
  have hq1 := List.mem_filter.mp hqm
  have hpq := (List.all_eq_true.mp
    ((List.all_eq_true.mp hp) p hp1.1)) q hq1.1
  rcases Bool.or_eq_true _ _ |>.mp hpq with he | hnb
  · exact eq_of_beq he
  · exfalso
    rcases Bool.or_eq_true _ _ |>.mp hnb with hlen | hc
    · have l1 := segmentsMatch_length_eq _ _ hp1.2
      have l2 := segmentsMatch_length_eq _ _ hq1.2
      rw [bne_iff_ne] at hlen
      exact hlen (l1.trans l2.symm)
    · exact conflictingSegs_not_both _ _ _ hc hp1.2 hq1.2

/-- Each method's pattern list in `PERMISSION_RULES` is pairwise exclusive:
patterns of equal segment count always differ in some literal segment. -/
theorem permission_rules_exclusive (method : String) :
    pairwiseExclusive ((PERMISSION_RULES method).map Prod.fst) = true := by
  unfold PERMISSION_RULES
  split
  · decide
  · split
    · decide
    · split
      · decide
      · split
        · decide
        · decide

/-- C10: rule-table unambiguity. For every HTTP method and every concrete
path, at most one pattern of the static `PERMISSION_RULES` table matches the
path at all (patterns of equal segment count are mutually exclusive on some
literal segment), so the pattern attaining the maximal literal-segment count
— and with it the result of `_find_matching_pattern` — is uniquely
determined for this rule set despite the order-dependent `max()` tie-break. -/
theorem C10_rule_table_unambiguous (method path p q : String)
    (hp : p ∈ ((PERMISSION_RULES method).map Prod.fst).filter
      fun pat => matchesPattern pat path)
    (hq : q ∈ ((PERMISSION_RULES method).map Prod.fst).filter
      fun pat => matchesPattern pat path) : p = q :=
  pairwiseExclusive_filter_eq _ path (permission_rules_exclusive method) p q
    hp hq

/-- Witness for C10 at a concrete method and path. -/
theorem C10_rule_table_unambiguous_witness :
    "teams/{team_id}" ∈ ((PERMISSION_RULES "GET").map Prod.fst).filter
      (fun pat => matchesPattern pat "teams/t1") ∧
    ("teams/{team_id}" : String) = "teams/{team_id}" :=
  ⟨by decide,
   C10_rule_table_unambiguous "GET" "teams/t1" "teams/{team_id}"
     "teams/{team_id}" (by decide) (by decide)⟩

end GCPImageUpload
